import Mathlib

/-!
Shallow embedding of the dds-token-server repository (src/main.py,
src/web_app.py) in Lean 4, with theorems checking the natural-language
specification against the code.

Modelling conventions:
- Python `str | None` values become `Option String`; Python truthiness of
  such a value (`if API_KEY`, `a or b`) is modelled explicitly (`none` and
  `some ""` are falsy).
- Wall-clock time (`int(time.time())`, `datetime.utcnow()`) is passed in as
  an integer parameter `now_ts`.
- The Agora token-building library (`agora_src`, an external dependency not
  part of this repository) is passed in as function parameters: an RTC
  builder that may raise (`Except String`), and a record of the optional
  RTM entry points that `build_rtm_token_compat` probes with `hasattr`.
- `HTTPException(status_code=..., detail=...)` becomes an `HTTPError`
  value returned through `Except`.
- Pydantic field constraints on `TokenRequest` (min_length, ge, le) are
  modelled as a per-field validation pass producing the list of 422
  validation-error messages; the FastAPI endpoint is the composition of
  that pass with the handler.
-/

/-- `ClientRole` enum from src/main.py lines 47-50. -/
inductive ClientRole where
  | host
  | cohost
  | participant
deriving DecidableEq, Repr

/-- The two Agora RTC roles imported from agora_src.RtcTokenBuilder2
(Role_Publisher / Role_Subscriber). -/
inductive AgoraRole where
  | Role_Publisher
  | Role_Subscriber
deriving DecidableEq, Repr

/-- The RTM role constant `Role_Rtm_User` imported from
agora_src.RtmTokenBuilder (its value, 1, is opaque to the server code). -/
def Role_Rtm_User : Nat := 1

/-- `TokenRequest` pydantic model from src/main.py lines 53-72.
Field constraints (min_length, ge, le) are checked separately by
`pydanticErrors`. -/
structure TokenRequest where
  channel : String
  uid : Int
  role : ClientRole
  expire_seconds : Int
  user_account : Option String
  api_key : Option String
deriving DecidableEq, Repr

/-- `TokenResponse` from src/main.py lines 75-81. -/
structure TokenResponse where
  token : String
  expire_at : Int
  now : Int
  channel : String
  uid : Int
  role : ClientRole
deriving DecidableEq, Repr

/-- `RtmTokenResponse` from src/main.py lines 83-87. -/
structure RtmTokenResponse where
  token : String
  expire_at : Int
  now : Int
  uid : Int
deriving DecidableEq, Repr

/-- `CombinedTokenResponse` from src/main.py lines 89-97. -/
structure CombinedTokenResponse where
  rtc_token : String
  rtm_token : String
  expire_at : Int
  now : Int
  channel : String
  uid : Int
  role : ClientRole
  user_account : String
deriving DecidableEq, Repr

/-- A raised `HTTPException(status_code, detail)`. -/
structure HTTPError where
  status_code : Nat
  detail : String
deriving DecidableEq, Repr

/-- Python truthiness of a `str | None` value: `None` and `""` are falsy. -/
def pyTruthy (o : Option String) : Bool :=
  match o with
  | none => false
  | some s => s ≠ ""

/-- Python `str.strip()`: removes leading and trailing whitespace.
(Defined over the character list so that it reduces definitionally;
`String.trim` in core Lean is stuck under kernel reduction.) -/
def pyStrip (s : String) : String :=
  List.asString
    ((((s.toList.dropWhile Char.isWhitespace).reverse).dropWhile Char.isWhitespace).reverse)

/-- Python `a or b` for `a : str | None`, `b : str`: returns `b` when `a`
is falsy (`None` or `""`). Used at main.py lines 140 and 314. -/
def pyOrElse (a : Option String) (b : String) : String :=
  match a with
  | none => b
  | some s => if s = "" then b else s

/-- `map_role` from src/main.py lines 218-226: membership test in the pair
(host, cohost) selects Role_Publisher, otherwise Role_Subscriber. -/
def map_role (client_role : ClientRole) : AgoraRole :=
  if client_role = ClientRole.host ∨ client_role = ClientRole.cohost then
    AgoraRole.Role_Publisher
  else
    AgoraRole.Role_Subscriber

/-- Module-level environment check at src/main.py lines 31-37: APP_ID and
APP_CERTIFICATE are read from the environment and module load raises
RuntimeError when either is falsy (unset or empty). No other check runs at
module load: in particular nothing inspects the RtmTokenBuilder library. -/
def startupEnvCheck (app_id app_certificate : Option String) : Except String Unit :=
  if ¬ pyTruthy app_id ∨ ¬ pyTruthy app_certificate then
    Except.error "AGORA_APP_ID e AGORA_APP_CERTIFICATE devem estar definidos nas variáveis de ambiente."
  else
    Except.ok ()

/-- `validate_api_key` from src/main.py lines 229-231: raises 401 only when
the configured API_KEY is truthy (set and non-empty) and the payload value
differs from it. -/
def validate_api_key (API_KEY : Option String) (api_key : Option String) :
    Except HTTPError Unit :=
  if pyTruthy API_KEY ∧ api_key ≠ API_KEY then
    Except.error { status_code := 401, detail := "Invalid API key" }
  else
    Except.ok ()

/-- Signature of an RTM build entry point of agora_src.RtmTokenBuilder
(appId, appCertificate, userAccount, role, privilegeExpiredTs); the
library call may itself raise, modelled by `Except String`. -/
def RtmBuildFn : Type := String → String → String → Nat → Int → Except String String

/-- The RTM library as seen through `hasattr`: each historically-used entry
point is present (`some`) or absent (`none`). -/
structure RtmTokenBuilderLib where
  build_token : Option RtmBuildFn
  buildToken : Option RtmBuildFn
  buildTokenWithUserAccount : Option RtmBuildFn

/-- `build_rtm_token_compat` from src/main.py lines 180-215: probes the
three entry-point names with `hasattr`, in order, on every call, and raises
RuntimeError when none is present. -/
def build_rtm_token_compat (lib : RtmTokenBuilderLib)
    (app_id app_cert user_account : String) (expire_ts : Int) :
    Except String String :=
  match lib.build_token with
  | some f => f app_id app_cert user_account Role_Rtm_User expire_ts
  | none =>
    match lib.buildToken with
    | some f => f app_id app_cert user_account Role_Rtm_User expire_ts
    | none =>
      match lib.buildTokenWithUserAccount with
      | some f => f app_id app_cert user_account Role_Rtm_User expire_ts
      | none =>
        Except.error "RtmTokenBuilder não possui métodos conhecidos (build_token/buildToken/buildTokenWithUserAccount). Verifique a versão do agora_src/RtmTokenBuilder.py."

/-- Module load of src/main.py as a whole: importing agora_src succeeds
regardless of which RTM entry points the library version exposes (the
`from ... import RtmTokenBuilder` only binds the class), then the
environment check of lines 31-37 runs. The library is a parameter here to
make explicit that module load never inspects it. -/
def mainModuleLoad (app_id app_certificate : Option String)
    (lib : RtmTokenBuilderLib) : Except String Unit :=
  let _ := lib
  startupEnvCheck app_id app_certificate

/-- Signature of `RtcTokenBuilder.build_token_with_uid`
(appId, appCertificate, channelName, uid, role, token_expire,
privilege_expire); the library call may raise. -/
def RtcBuildFn : Type := String → String → String → Int → AgoraRole → Int → Int → Except String String

/-- `generate_rtc_token` handler from src/main.py lines 248-290. -/
def generate_rtc_token (API_KEY : Option String) (APP_ID APP_CERTIFICATE : String)
    (rtcBuild : RtcBuildFn) (now_ts : Int) (payload : TokenRequest) :
    Except HTTPError TokenResponse :=
  match validate_api_key API_KEY payload.api_key with
  | Except.error e => Except.error e
  | Except.ok _ =>
    let channel := pyStrip payload.channel
    if channel = "" then
      Except.error { status_code := 400, detail := "Channel name cannot be empty." }
    else
      let uid := payload.uid
      if uid < 0 then
        Except.error { status_code := 400, detail := "UID must be >= 0." }
      else
        let agora_role := map_role payload.role
        let expire_ts := now_ts + payload.expire_seconds
        match rtcBuild APP_ID APP_CERTIFICATE channel uid agora_role expire_ts expire_ts with
        | Except.error e =>
          Except.error { status_code := 500, detail := "Failed to generate token: " ++ e }
        | Except.ok token =>
          Except.ok { token := token, expire_at := expire_ts, now := now_ts,
                      channel := channel, uid := uid, role := payload.role }

/-- `generate_tokens` combined handler from src/main.py lines 118-174. -/
def generate_tokens (API_KEY : Option String) (APP_ID APP_CERTIFICATE : String)
    (rtcBuild : RtcBuildFn) (rtmLib : RtmTokenBuilderLib) (now_ts : Int)
    (payload : TokenRequest) : Except HTTPError CombinedTokenResponse :=
  match validate_api_key API_KEY payload.api_key with
  | Except.error e => Except.error e
  | Except.ok _ =>
    let channel := pyStrip payload.channel
    if channel = "" then
      Except.error { status_code := 400, detail := "Channel name cannot be empty." }
    else
      let uid := payload.uid
      if uid < 0 then
        Except.error { status_code := 400, detail := "UID must be >= 0." }
      else
        let agora_role := map_role payload.role
        let expire_ts := now_ts + payload.expire_seconds
        let user_account := pyStrip (pyOrElse payload.user_account (toString uid))
        if user_account = "" then
          Except.error { status_code := 400, detail := "user_account cannot be empty when provided." }
        else
          match rtcBuild APP_ID APP_CERTIFICATE channel uid agora_role expire_ts expire_ts with
          | Except.error e =>
            Except.error { status_code := 500, detail := "Failed to generate tokens: " ++ e }
          | Except.ok rtc_token =>
            match build_rtm_token_compat rtmLib APP_ID APP_CERTIFICATE user_account expire_ts with
            | Except.error e =>
              Except.error { status_code := 500, detail := "Failed to generate tokens: " ++ e }
            | Except.ok rtm_token =>
              Except.ok { rtc_token := rtc_token, rtm_token := rtm_token,
                          expire_at := expire_ts, now := now_ts, channel := channel,
                          uid := uid, role := payload.role, user_account := user_account }

/-- `generate_rtm_token` handler from src/main.py lines 298-332: the
user_account trimming and emptiness check sit inside the try-block, so a
ValueError there is caught by the blanket `except Exception` and re-raised
as HTTP 500. -/
def generate_rtm_token (API_KEY : Option String) (APP_ID APP_CERTIFICATE : String)
    (rtmLib : RtmTokenBuilderLib) (now_ts : Int) (payload : TokenRequest) :
    Except HTTPError RtmTokenResponse :=
  match validate_api_key API_KEY payload.api_key with
  | Except.error e => Except.error e
  | Except.ok _ =>
    let expire_ts := now_ts + payload.expire_seconds
    let tryBlock : Except String String :=
      let user_account := pyStrip (pyOrElse payload.user_account (toString payload.uid))
      if user_account = "" then
        Except.error "user_account cannot be empty."
      else
        build_rtm_token_compat rtmLib APP_ID APP_CERTIFICATE user_account expire_ts
    match tryBlock with
    | Except.error e =>
      Except.error { status_code := 500, detail := "Failed to generate RTM token: " ++ e }
    | Except.ok rtm_token =>
      Except.ok { token := rtm_token, expire_at := expire_ts, now := now_ts,
                  uid := payload.uid }

/-- Pydantic field validation of `TokenRequest` (src/main.py lines 53-72):
channel min_length=1, uid ge=0, expire_seconds ge=60 le=86400,
user_account min_length=1 when provided. Returns the list of 422
validation-error messages; an empty list means the payload parses. -/
def pydanticErrors (r : TokenRequest) : List String :=
  (if r.channel.length < 1 then
    ["channel: String should have at least 1 character"] else []) ++
  (if r.uid < 0 then
    ["uid: Input should be greater than or equal to 0"] else []) ++
  (if r.expire_seconds < 60 then
    ["expire_seconds: Input should be greater than or equal to 60"] else []) ++
  (if r.expire_seconds > 86400 then
    ["expire_seconds: Input should be less than or equal to 86400"] else []) ++
  (match r.user_account with
   | none => []
   | some ua => if ua.length < 1 then
      ["user_account: String should have at least 1 character"] else [])

/-- An HTTP response of an endpoint: either a value, or a status code with
a list of error details (the 422 case carries one message per failed field;
handler-raised HTTPExceptions carry their single detail). -/
def EndpointResult (α : Type) : Type := Except (Nat × List String) α

/-- The POST /rtc/token endpoint: FastAPI parses the body through pydantic
(422 with the field errors on failure) and then runs `generate_rtc_token`. -/
def rtc_token_endpoint (API_KEY : Option String) (APP_ID APP_CERTIFICATE : String)
    (rtcBuild : RtcBuildFn) (now_ts : Int) (payload : TokenRequest) :
    EndpointResult TokenResponse :=
  match pydanticErrors payload with
  | [] =>
    match generate_rtc_token API_KEY APP_ID APP_CERTIFICATE rtcBuild now_ts payload with
    | Except.error e => Except.error (e.status_code, [e.detail])
    | Except.ok resp => Except.ok resp
  | errs => Except.error (422, errs)

/-- The POST /token endpoint: pydantic parse then `generate_tokens`. -/
def combined_token_endpoint (API_KEY : Option String) (APP_ID APP_CERTIFICATE : String)
    (rtcBuild : RtcBuildFn) (rtmLib : RtmTokenBuilderLib) (now_ts : Int)
    (payload : TokenRequest) : EndpointResult CombinedTokenResponse :=
  match pydanticErrors payload with
  | [] =>
    match generate_tokens API_KEY APP_ID APP_CERTIFICATE rtcBuild rtmLib now_ts payload with
    | Except.error e => Except.error (e.status_code, [e.detail])
    | Except.ok resp => Except.ok resp
  | errs => Except.error (422, errs)

/-!
## Model of src/web_app.py

The Firestore document store is modelled as a function from document id to
an optional document; `set(..., merge=True)` becomes a record update that
keeps the fields not mentioned in the payload. Firestore timestamps
(`SERVER_TIMESTAMP`, `expireAt`) are modelled as epoch integers, with the
sentinel-valued audit fields (`createdAt`, `usedAt`, `coverUpdatedAt`)
reduced to a Bool recording that they were set.
-/

/-- A document of the OnlineFormTokens collection, as read by
`snap.to_dict()` in src/web_app.py: every field access goes through
`.get(...)`, so each field is optional. -/
structure TokenDoc where
  status : Option String
  expireAt : Option Int
  prefSubject : Option String
  prefDate : Option String
  prefTime : Option String
  senderEmail : Option String
  sessionId : Option String
  usedAt : Bool
deriving DecidableEq, Repr

/-- A document of the DDS_Sessions collection as written by `post_form`. -/
structure SessionDoc where
  type : String
  date : String
  time : String
  timezone : String
  subject : String
  status : String
  createdAt : Bool
  createdByEmail : String
  hostTeams : List String
  cohostTeams : List String
  participant : List String
  channelName : String
  formToken : String
  coverFiles : List String
  coverUpdatedAt : Bool
deriving DecidableEq, Repr

/-- The mutable external state of src/web_app.py: the two Firestore
collections and the Storage bucket (path-exists map). -/
structure WebState where
  tokens : String → Option TokenDoc
  sessions : String → Option SessionDoc
  storagePaths : String → Bool

/-- `_norm_team` from src/web_app.py lines 25-26: strip, remove all
whitespace, uppercase. -/
def norm_team (s : String) : String :=
  List.asString ((((pyStrip s).toList).filter (fun c => !c.isWhitespace)).map Char.toUpper)

/-- One step of `re.sub(r"[^A-Z0-9]+", "-", s)`: each maximal run of
characters outside A-Z0-9 collapses to a single dash. -/
def slugCollapse : List Char → List Char
  | [] => []
  | c :: rest =>
    let tail := slugCollapse rest
    if ('A' ≤ c ∧ c ≤ 'Z') ∨ ('0' ≤ c ∧ c ≤ '9') then c :: tail
    else
      match tail with
      | '-' :: _ => tail
      | _ => '-' :: tail

/-- `_slugify` from src/web_app.py lines 29-32. -/
def slugify (s : String) : String :=
  let up := ((pyStrip s).toList).map Char.toUpper
  let collapsed := slugCollapse up
  let stripped := ((collapsed.dropWhile (· == '-')).reverse.dropWhile (· == '-')).reverse
  let lowered := List.asString (stripped.map Char.toLower)
  if lowered = "" then "reuniao" else lowered

/-- `_make_session_id` from src/web_app.py lines 35-38. -/
def make_session_id (date_iso time_hhmm assunto : String) : String :=
  let ymd := List.asString (date_iso.toList.filter (fun c => c ≠ '-'))
  let hhmm := List.asString (time_hhmm.toList.filter (fun c => c ≠ ':'))
  "dds-" ++ ymd ++ "-" ++ hhmm ++ "-" ++ List.asString ((slugify assunto).toList.take 40)

/-- The regex `^\d{4}-\d{2}-\d{2}$` of src/web_app.py line 108. -/
def dateFormatOk (s : String) : Bool :=
  match s.toList with
  | [a, b, c, d, s1, e, f, s2, g, h] =>
    a.isDigit && b.isDigit && c.isDigit && d.isDigit && s1 == '-' &&
    e.isDigit && f.isDigit && s2 == '-' && g.isDigit && h.isDigit
  | _ => false

/-- The regex `^\d{2}:\d{2}$` of src/web_app.py line 110. -/
def timeFormatOk (s : String) : Bool :=
  match s.toList with
  | [a, b, s1, c, d] => a.isDigit && b.isDigit && s1 == ':' && c.isDigit && d.isDigit
  | _ => false

/-- `_validate_token` from src/web_app.py lines 45-66: rejects short
tokens (400), unknown tokens (404), already-used tokens (410), and
expired tokens (410); otherwise returns the document. -/
def validate_form_token (tokens : String → Option TokenDoc) (now : Int)
    (token : String) : Except HTTPError TokenDoc :=
  if token = "" ∨ token.length < 12 then
    Except.error { status_code := 400, detail := "Token inválido" }
  else
    match tokens token with
    | none => Except.error { status_code := 404, detail := "Token não encontrado" }
    | some data =>
      if data.status = some "used" then
        Except.error { status_code := 410, detail := "Token já utilizado" }
      else
        match data.expireAt with
        | some exp =>
          if now > exp then
            Except.error { status_code := 410, detail := "Token expirado" }
          else
            Except.ok data
        | none => Except.ok data

/-- The template context rendered by `get_form` (agendar.html). -/
structure FormPage where
  token : String
  pref_subject : String
  pref_date : String
  pref_time : String
deriving DecidableEq, Repr

/-- `get_form` handler from src/web_app.py lines 74-86. -/
def get_form (st : WebState) (now : Int) (token : String) :
    Except HTTPError FormPage :=
  match validate_form_token st.tokens now token with
  | Except.error e => Except.error e
  | Except.ok t =>
    Except.ok { token := token, pref_subject := t.prefSubject.getD "",
                pref_date := t.prefDate.getD "", pref_time := t.prefTime.getD "" }

/-- The template context rendered by `post_form` (sucesso.html). -/
structure FormSuccess where
  session_id : String
  date : String
  time : String
  subject : String
  host : String
  cohost : String
deriving DecidableEq, Repr

/-- `post_form` handler from src/web_app.py lines 89-171: validate the
form token, validate the fields, write the session document, upload the
cover, record the cover path, and mark the token used (merge preserves the
token document's other fields). Returns the updated state alongside the
rendered success context. -/
def post_form (st : WebState) (now : Int)
    (token data hora assunto host : String) (cohost : Option String)
    (capa_filename : String) : Except HTTPError (WebState × FormSuccess) :=
  match validate_form_token st.tokens now token with
  | Except.error e => Except.error e
  | Except.ok token_data =>
    let host_n := norm_team host
    if host_n = "" then
      Except.error { status_code := 400, detail := "Host é obrigatório" }
    else
      let cohost_n := match cohost with
        | some c => if c = "" then "" else norm_team c
        | none => ""
      if ¬ dateFormatOk data then
        Except.error { status_code := 400, detail := "Data inválida (use YYYY-MM-DD)" }
      else if ¬ timeFormatOk hora then
        Except.error { status_code := 400, detail := "Hora inválida (use HH:MM)" }
      else if pyStrip assunto = "" then
        Except.error { status_code := 400, detail := "Assunto é obrigatório" }
      else if capa_filename = "" then
        Except.error { status_code := 400, detail := "Arquivo de capa inválido" }
      else
        let session_id := make_session_id data hora assunto
        let channel_name := session_id
        let oldSession := st.sessions session_id
        let session1 : SessionDoc :=
          { type := "online", date := data, time := hora,
            timezone := "America/Sao_Paulo", subject := pyStrip assunto,
            status := "scheduled", createdAt := true,
            createdByEmail := token_data.senderEmail.getD "",
            hostTeams := [host_n],
            cohostTeams := if cohost_n = "" then [] else [cohost_n],
            participant := ["*"],
            channelName := channel_name, formToken := token,
            coverFiles := (oldSession.map SessionDoc.coverFiles).getD [],
            coverUpdatedAt := (oldSession.map SessionDoc.coverUpdatedAt).getD false }
        let blob_path := "DDSv2/ONLINE/" ++ session_id ++ "/CAPA/" ++ capa_filename
        let storage1 := fun p => if p = blob_path then true else st.storagePaths p
        let session2 : SessionDoc :=
          { session1 with coverFiles := [blob_path], coverUpdatedAt := true }
        let sessions2 := fun sid =>
          if sid = session_id then some session2 else st.sessions sid
        let newTokenDoc : TokenDoc :=
          { token_data with status := some "used", usedAt := true,
                            sessionId := some session_id }
        let tokens2 := fun t => if t = token then some newTokenDoc else st.tokens t
        Except.ok ({ tokens := tokens2, sessions := sessions2,
                     storagePaths := storage1 },
                   { session_id := session_id, date := data, time := hora,
                     subject := assunto, host := host_n, cohost := cohost_n })

/-!
## Concrete builder stand-ins used in witnesses
-/

/-- An RTC builder that always succeeds, for instantiating theorems. -/
def okRtcBuild : RtcBuildFn := fun _ _ _ _ _ _ _ => Except.ok "rtc-token"

/-- An RTM library exposing `build_token`, always succeeding. -/
def okRtmLib : RtmTokenBuilderLib :=
  { build_token := some (fun _ _ _ _ _ => Except.ok "rtm-token"),
    buildToken := none, buildTokenWithUserAccount := none }

/-- An RTM library exposing none of the three known entry points. -/
def noCapabilityLib : RtmTokenBuilderLib :=
  { build_token := none, buildToken := none, buildTokenWithUserAccount := none }

/-- The RuntimeError message of build_rtm_token_compat when no entry point
is found. -/
def noCapabilityMsg : String :=
  "RtmTokenBuilder não possui métodos conhecidos (build_token/buildToken/buildTokenWithUserAccount). Verifique a versão do agora_src/RtmTokenBuilder.py."

/-!
## Theorems
-/

/-- C1: `map_role` is total on the role enum and raises no error: host and
cohost map to the publisher privilege, participant to the subscriber
privilege, and every role maps to one of the two. -/
theorem C1_map_role_total :
    map_role ClientRole.host = AgoraRole.Role_Publisher ∧
    map_role ClientRole.cohost = AgoraRole.Role_Publisher ∧
    map_role ClientRole.participant = AgoraRole.Role_Subscriber ∧
    ∀ r : ClientRole, map_role r = AgoraRole.Role_Publisher ∨
      map_role r = AgoraRole.Role_Subscriber := by
  refine ⟨rfl, rfl, rfl, ?_⟩
  intro r
  cases r <;> simp [map_role]

/-- C3 counterexample: with an RTM library exposing none of the three
entry points, module load (startup) of src/main.py still succeeds — the
missing-capability RuntimeError is only raised per call inside
`build_rtm_token_compat`, surfacing as HTTP 500 on the first token
request, not as a startup failure. -/
theorem C3_counterexample :
    mainModuleLoad (some "appid") (some "cert") noCapabilityLib = Except.ok () ∧
    build_rtm_token_compat noCapabilityLib "appid" "cert" "alice" 1000 =
      Except.error noCapabilityMsg ∧
    generate_rtm_token none "appid" "cert" noCapabilityLib 100
      { channel := "room", uid := 7, role := ClientRole.host,
        expire_seconds := 3600, user_account := some "alice", api_key := none } =
      Except.error { status_code := 500,
                     detail := "Failed to generate RTM token: " ++ noCapabilityMsg } := by
  exact ⟨rfl, rfl, rfl⟩

/-- C3 amended: the entry-point lookup (`hasattr` over build_token,
buildToken, buildTokenWithUserAccount) runs on every call of
`build_rtm_token_compat`, which raises the missing-capability RuntimeError
at call time when no variant is present; module load performs no capability
check, behaving identically whatever the library exposes. -/
theorem C3_lookup_per_call (lib : RtmTokenBuilderLib)
    (h1 : lib.build_token = none) (h2 : lib.buildToken = none)
    (h3 : lib.buildTokenWithUserAccount = none)
    (app_id app_cert ua : String) (ts : Int) (env_id env_cert : Option String) :
    build_rtm_token_compat lib app_id app_cert ua ts = Except.error noCapabilityMsg ∧
    mainModuleLoad env_id env_cert lib = startupEnvCheck env_id env_cert := by
  constructor
  · unfold build_rtm_token_compat
    rw [h1, h2, h3]
    rfl
  · rfl

/-- Witness for C3_lookup_per_call at a concrete capability-less library. -/
theorem C3_lookup_per_call_witness :
    build_rtm_token_compat noCapabilityLib "a" "c" "u" 5 = Except.error noCapabilityMsg ∧
    mainModuleLoad (some "a") (some "c") noCapabilityLib = startupEnvCheck (some "a") (some "c") :=
  C3_lookup_per_call noCapabilityLib rfl rfl rfl "a" "c" "u" 5 (some "a") (some "c")

/-- C10 counterexample: with TOKEN_SERVER_API_KEY set to the empty string
(a set environment variable), a request whose api_key field ("wrong") does
not equal it is not rejected with 401: Python truthiness skips the check
and the token is issued. -/
theorem C10_counterexample :
    ((some "wrong" : Option String) ≠ some "") ∧
    validate_api_key (some "") (some "wrong") = Except.ok () ∧
    generate_rtc_token (some "") "app" "cert" okRtcBuild 1000
      { channel := "room", uid := 7, role := ClientRole.host,
        expire_seconds := 3600, user_account := none, api_key := some "wrong" } =
      Except.ok { token := "rtc-token", expire_at := 4600, now := 1000,
                  channel := "room", uid := 7, role := ClientRole.host } := by
  exact ⟨by decide, rfl, rfl⟩

/-- C10 amended: when TOKEN_SERVER_API_KEY is set to a NON-EMPTY value,
every token endpoint rejects a request whose api_key field differs from it
with HTTP 401, before any validation or token building (the result does
not depend on the builder, the library, the clock, or the other fields);
when it is unset — or set to the empty string — no API-key check is
performed and the api_key field is ignored. -/
theorem C10_api_key_gate (k : String) (hk : k ≠ "") (r : TokenRequest)
    (hne : r.api_key ≠ some k) (appId appCert : String)
    (build build' : RtcBuildFn) (lib : RtmTokenBuilderLib) (now now' : Int) :
    validate_api_key (some k) r.api_key = Except.error ⟨401, "Invalid API key"⟩ ∧
    generate_rtc_token (some k) appId appCert build now r =
      Except.error ⟨401, "Invalid API key"⟩ ∧
    generate_tokens (some k) appId appCert build lib now r =
      Except.error ⟨401, "Invalid API key"⟩ ∧
    generate_rtm_token (some k) appId appCert lib now r =
      Except.error ⟨401, "Invalid API key"⟩ ∧
    generate_rtc_token (some k) appId appCert build now r =
      generate_rtc_token (some k) appId appCert build' now' r ∧
    (∀ x, validate_api_key none x = Except.ok ()) ∧
    (∀ x, validate_api_key (some "") x = Except.ok ()) := by
  have hv : validate_api_key (some k) r.api_key =
      Except.error ⟨401, "Invalid API key"⟩ := by
    unfold validate_api_key
    rw [if_pos]
    exact ⟨by simp [pyTruthy, hk], hne⟩
  refine ⟨hv, ?_, ?_, ?_, ?_, ?_, ?_⟩
  · unfold generate_rtc_token; rw [hv]
  · unfold generate_tokens; rw [hv]
  · unfold generate_rtm_token; rw [hv]
  · unfold generate_rtc_token; rw [hv]
  · intro x; rfl
  · intro x; unfold validate_api_key; rw [if_neg]; simp [pyTruthy]

/-- Witness for C10_api_key_gate at a concrete configured key. -/
theorem C10_api_key_gate_witness :
    validate_api_key (some "secret") (some "nope") = Except.error ⟨401, "Invalid API key"⟩ ∧
    generate_rtc_token (some "secret") "app" "cert" okRtcBuild 1000
      { channel := "room", uid := 7, role := ClientRole.host,
        expire_seconds := 3600, user_account := none, api_key := some "nope" } =
      Except.error ⟨401, "Invalid API key"⟩ ∧
    generate_tokens (some "secret") "app" "cert" okRtcBuild okRtmLib 1000
      { channel := "room", uid := 7, role := ClientRole.host,
        expire_seconds := 3600, user_account := none, api_key := some "nope" } =
      Except.error ⟨401, "Invalid API key"⟩ ∧
    generate_rtm_token (some "secret") "app" "cert" okRtmLib 1000
      { channel := "room", uid := 7, role := ClientRole.host,
        expire_seconds := 3600, user_account := none, api_key := some "nope" } =
      Except.error ⟨401, "Invalid API key"⟩ ∧
    generate_rtc_token (some "secret") "app" "cert" okRtcBuild 1000
      { channel := "room", uid := 7, role := ClientRole.host,
        expire_seconds := 3600, user_account := none, api_key := some "nope" } =
      generate_rtc_token (some "secret") "app" "cert"
        (fun _ _ _ _ _ _ _ => Except.error "boom") 999
        { channel := "room", uid := 7, role := ClientRole.host,
          expire_seconds := 3600, user_account := none, api_key := some "nope" } ∧
    (∀ x, validate_api_key none x = Except.ok ()) ∧
    (∀ x, validate_api_key (some "") x = Except.ok ()) :=
  C10_api_key_gate "secret" (by decide)
    { channel := "room", uid := 7, role := ClientRole.host,
      expire_seconds := 3600, user_account := none, api_key := some "nope" }
    (by decide) "app" "cert" okRtcBuild
    (fun _ _ _ _ _ _ _ => Except.error "boom") okRtmLib 1000 999

/-- Helper: a duration below 60 contributes the ge-60 message to the
pydantic validation errors. -/
theorem duration_lt_mem (r : TokenRequest) (h : r.expire_seconds < 60) :
    "expire_seconds: Input should be greater than or equal to 60" ∈ pydanticErrors r := by
  unfold pydanticErrors
  simp [h]

/-- Helper: a duration above 86400 contributes the le-86400 message to the
pydantic validation errors. -/
theorem duration_gt_mem (r : TokenRequest) (h : 86400 < r.expire_seconds) :
    "expire_seconds: Input should be less than or equal to 86400" ∈ pydanticErrors r := by
  unfold pydanticErrors
  have h' : ¬ r.expire_seconds < 60 := by omega
  simp [h, h']

/-- Helper: a payload that passes pydantic satisfies the field bounds. -/
theorem pydantic_ok_bounds (r : TokenRequest) (h : pydanticErrors r = []) :
    1 ≤ r.channel.length ∧ 0 ≤ r.uid ∧
    60 ≤ r.expire_seconds ∧ r.expire_seconds ≤ 86400 := by
  refine ⟨?_, ?_, ?_, ?_⟩ <;>
    · by_contra hc
      push_neg at hc
      unfold pydanticErrors at h
      simp [hc] at h

/-- Helper: a successful `generate_rtc_token` response carries
`expire_at = now + expire_seconds` and `now` itself. -/
theorem generate_rtc_token_ok_elim (apiKey : Option String) (appId appCert : String)
    (build : RtcBuildFn) (now : Int) (r : TokenRequest) (resp : TokenResponse)
    (h : generate_rtc_token apiKey appId appCert build now r = Except.ok resp) :
    resp.expire_at = now + r.expire_seconds ∧ resp.now = now := by
  simp only [generate_rtc_token] at h
  repeat' split at h
  all_goals first
    | exact Except.noConfusion h
    | (injection h with h2; subst h2; exact ⟨rfl, rfl⟩)

/-- Helper: a successful `generate_tokens` response carries
`expire_at = now + expire_seconds` and `now` itself. -/
theorem generate_tokens_ok_elim (apiKey : Option String) (appId appCert : String)
    (build : RtcBuildFn) (lib : RtmTokenBuilderLib) (now : Int) (r : TokenRequest)
    (resp : CombinedTokenResponse)
    (h : generate_tokens apiKey appId appCert build lib now r = Except.ok resp) :
    resp.expire_at = now + r.expire_seconds ∧ resp.now = now := by
  simp only [generate_tokens] at h
  repeat' split at h
  all_goals first
    | exact Except.noConfusion h
    | (injection h with h2; subst h2; exact ⟨rfl, rfl⟩)

/-- C2: expiry is pure addition and the duration range is rejected, not
clamped: a token issued by the /rtc/token endpoint has
expire_at = now + duration with the duration inside [60, 86400]; any
out-of-range duration is rejected at the pydantic layer (HTTP 422, with
the corresponding range message) and no token is produced. -/
theorem C2_expiry_addition_and_range (apiKey : Option String) (appId appCert : String)
    (build : RtcBuildFn) (now : Int) (r : TokenRequest) :
    (∀ resp, rtc_token_endpoint apiKey appId appCert build now r = Except.ok resp →
        60 ≤ r.expire_seconds ∧ r.expire_seconds ≤ 86400 ∧
        resp.expire_at = now + r.expire_seconds) ∧
    (r.expire_seconds < 60 ∨ 86400 < r.expire_seconds →
      ∃ errs, rtc_token_endpoint apiKey appId appCert build now r =
          Except.error (422, errs) ∧
        (r.expire_seconds < 60 →
          "expire_seconds: Input should be greater than or equal to 60" ∈ errs) ∧
        (86400 < r.expire_seconds →
          "expire_seconds: Input should be less than or equal to 86400" ∈ errs)) := by
  constructor
  · intro resp h
    unfold rtc_token_endpoint at h
    cases hp : pydanticErrors r with
    | nil =>
      rw [hp] at h
      obtain ⟨-, -, h60, h86400⟩ := pydantic_ok_bounds r hp
      cases hg : generate_rtc_token apiKey appId appCert build now r with
      | error e => rw [hg] at h; exact Except.noConfusion h
      | ok resp' =>
        rw [hg] at h
        injection h with h2
        subst h2
        exact ⟨h60, h86400, (generate_rtc_token_ok_elim _ _ _ _ _ _ _ hg).1⟩
    | cons a l => rw [hp] at h; exact Except.noConfusion h
  · intro hd
    refine ⟨pydanticErrors r, ?_, fun hlt => duration_lt_mem r hlt,
            fun hgt => duration_gt_mem r hgt⟩
    unfold rtc_token_endpoint
    cases hp : pydanticErrors r with
    | nil =>
      exfalso
      cases hd with
      | inl hlt => have := duration_lt_mem r hlt; rw [hp] at this; exact absurd this (by simp)
      | inr hgt => have := duration_gt_mem r hgt; rw [hp] at this; exact absurd this (by simp)
    | cons a l => rfl

/-- Witness for C2 at duration 59 (rejected) together with the successful
branch exercised at duration 3600 through the theorem's first conjunct. -/
theorem C2_witness :
    (∃ errs, rtc_token_endpoint none "app" "cert" okRtcBuild 1000
        { channel := "room", uid := 7, role := ClientRole.host,
          expire_seconds := 59, user_account := none, api_key := none } =
        Except.error (422, errs) ∧
      ((59 : Int) < 60 →
        "expire_seconds: Input should be greater than or equal to 60" ∈ errs) ∧
      ((86400 : Int) < 59 →
        "expire_seconds: Input should be less than or equal to 86400" ∈ errs)) ∧
    ((60 : Int) ≤ 3600 ∧ (3600 : Int) ≤ 86400 ∧ (4600 : Int) = 1000 + 3600) :=
  ⟨(C2_expiry_addition_and_range none "app" "cert" okRtcBuild 1000
      { channel := "room", uid := 7, role := ClientRole.host,
        expire_seconds := 59, user_account := none, api_key := none }).2
      (Or.inl (by decide)),
   (C2_expiry_addition_and_range none "app" "cert" okRtcBuild 1000
      { channel := "room", uid := 7, role := ClientRole.host,
        expire_seconds := 3600, user_account := none, api_key := none }).1
      { token := "rtc-token", expire_at := 4600, now := 1000,
        channel := "room", uid := 7, role := ClientRole.host } rfl⟩

/-- C4: a request whose channel name strips to the empty string is
rejected by both the media (/rtc/token) and combined (/token) handlers
with HTTP 400 "Channel name cannot be empty.", and no token is produced. -/
theorem C4_empty_channel_rejected (apiKey : Option String) (appId appCert : String)
    (build : RtcBuildFn) (lib : RtmTokenBuilderLib) (now now2 : Int) (r : TokenRequest)
    (hkey : validate_api_key apiKey r.api_key = Except.ok ())
    (hch : pyStrip r.channel = "") :
    generate_rtc_token apiKey appId appCert build now r =
      Except.error { status_code := 400, detail := "Channel name cannot be empty." } ∧
    generate_tokens apiKey appId appCert build lib now2 r =
      Except.error { status_code := 400, detail := "Channel name cannot be empty." } := by
  constructor
  · unfold generate_rtc_token
    rw [hkey]
    simp [hch]
  · unfold generate_tokens
    rw [hkey]
    simp [hch]

/-- Witness for C4 at a whitespace-only channel. -/
theorem C4_witness :
    generate_rtc_token none "app" "cert" okRtcBuild 50
      { channel := "   ", uid := 3, role := ClientRole.participant,
        expire_seconds := 3600, user_account := none, api_key := none } =
      Except.error { status_code := 400, detail := "Channel name cannot be empty." } ∧
    generate_tokens none "app" "cert" okRtcBuild okRtmLib 60
      { channel := "   ", uid := 3, role := ClientRole.participant,
        expire_seconds := 3600, user_account := none, api_key := none } =
      Except.error { status_code := 400, detail := "Channel name cannot be empty." } :=
  C4_empty_channel_rejected none "app" "cert" okRtcBuild okRtmLib 50 60
    { channel := "   ", uid := 3, role := ClientRole.participant,
      expire_seconds := 3600, user_account := none, api_key := none } rfl rfl

/-- C5: in the combined handler, a negative uid or a user_account that
strips to the empty string is rejected with HTTP 400 before any token is
built. -/
theorem C5_invalid_identity (apiKey : Option String) (appId appCert : String)
    (build : RtcBuildFn) (lib : RtmTokenBuilderLib) (now : Int) (r : TokenRequest)
    (hkey : validate_api_key apiKey r.api_key = Except.ok ())
    (hch : pyStrip r.channel ≠ "") :
    (r.uid < 0 →
      generate_tokens apiKey appId appCert build lib now r =
        Except.error { status_code := 400, detail := "UID must be >= 0." }) ∧
    (0 ≤ r.uid → pyStrip (pyOrElse r.user_account (toString r.uid)) = "" →
      generate_tokens apiKey appId appCert build lib now r =
        Except.error { status_code := 400,
                       detail := "user_account cannot be empty when provided." }) := by
  constructor
  · intro huid
    unfold generate_tokens
    rw [hkey]
    simp [hch, huid]
  · intro huid hacc
    unfold generate_tokens
    rw [hkey]
    simp [hch, hacc, not_lt.mpr huid]

/-- Witness for C5 at uid 0 and a whitespace-only user_account. -/
theorem C5_witness :
    generate_tokens none "app" "cert" okRtcBuild okRtmLib 10
      { channel := "c", uid := 0, role := ClientRole.host, expire_seconds := 3600,
        user_account := some " ", api_key := none } =
      Except.error { status_code := 400,
                     detail := "user_account cannot be empty when provided." } :=
  (C5_invalid_identity none "app" "cert" okRtcBuild okRtmLib 10
    { channel := "c", uid := 0, role := ClientRole.host, expire_seconds := 3600,
      user_account := some " ", api_key := none } rfl (by decide)).2 (by decide) rfl

/-- Helper: with the API key accepted and an empty stripped channel, the
rtc handler returns the 400 channel error, whatever the builder. -/
theorem rtc_channel_400 (apiKey : Option String) (appId appCert : String)
    (build : RtcBuildFn) (now : Int) (r : TokenRequest)
    (hkey : validate_api_key apiKey r.api_key = Except.ok ())
    (hch : pyStrip r.channel = "") :
    generate_rtc_token apiKey appId appCert build now r =
      Except.error { status_code := 400, detail := "Channel name cannot be empty." } := by
  unfold generate_rtc_token
  rw [hkey]
  simp [hch]

/-- Helper: the combined handler's 400 channel error. -/
theorem tokens_channel_400 (apiKey : Option String) (appId appCert : String)
    (build : RtcBuildFn) (lib : RtmTokenBuilderLib) (now : Int) (r : TokenRequest)
    (hkey : validate_api_key apiKey r.api_key = Except.ok ())
    (hch : pyStrip r.channel = "") :
    generate_tokens apiKey appId appCert build lib now r =
      Except.error { status_code := 400, detail := "Channel name cannot be empty." } := by
  unfold generate_tokens
  rw [hkey]
  simp [hch]

/-- Helper: the rtc handler's 400 uid error, whatever the builder. -/
theorem rtc_uid_400 (apiKey : Option String) (appId appCert : String)
    (build : RtcBuildFn) (now : Int) (r : TokenRequest)
    (hkey : validate_api_key apiKey r.api_key = Except.ok ())
    (hch : pyStrip r.channel ≠ "") (huid : r.uid < 0) :
    generate_rtc_token apiKey appId appCert build now r =
      Except.error { status_code := 400, detail := "UID must be >= 0." } := by
  unfold generate_rtc_token
  rw [hkey]
  simp [hch, huid]

/-- Helper: the combined handler's 400 uid error. -/
theorem tokens_uid_400 (apiKey : Option String) (appId appCert : String)
    (build : RtcBuildFn) (lib : RtmTokenBuilderLib) (now : Int) (r : TokenRequest)
    (hkey : validate_api_key apiKey r.api_key = Except.ok ())
    (hch : pyStrip r.channel ≠ "") (huid : r.uid < 0) :
    generate_tokens apiKey appId appCert build lib now r =
      Except.error { status_code := 400, detail := "UID must be >= 0." } := by
  unfold generate_tokens
  rw [hkey]
  simp [hch, huid]

/-- Helper: a builder exception in the rtc handler surfaces as HTTP 500
with the exception text appended. -/
theorem rtc_build_500 (apiKey : Option String) (appId appCert : String)
    (build : RtcBuildFn) (now : Int) (r : TokenRequest) (msg : String)
    (hkey : validate_api_key apiKey r.api_key = Except.ok ())
    (hch : pyStrip r.channel ≠ "") (huid : ¬ r.uid < 0)
    (hb : build appId appCert (pyStrip r.channel) r.uid (map_role r.role)
            (now + r.expire_seconds) (now + r.expire_seconds) = Except.error msg) :
    generate_rtc_token apiKey appId appCert build now r =
      Except.error { status_code := 500, detail := "Failed to generate token: " ++ msg } := by
  unfold generate_rtc_token
  rw [hkey]
  simp [hch, huid, hb]

/-- Helper: an RTC builder exception in the combined handler surfaces as
HTTP 500 with the exception text appended. -/
theorem tokens_build_500 (apiKey : Option String) (appId appCert : String)
    (build : RtcBuildFn) (lib : RtmTokenBuilderLib) (now : Int) (r : TokenRequest)
    (msg : String)
    (hkey : validate_api_key apiKey r.api_key = Except.ok ())
    (hch : pyStrip r.channel ≠ "") (huid : ¬ r.uid < 0)
    (hacc : pyStrip (pyOrElse r.user_account (toString r.uid)) ≠ "")
    (hb : build appId appCert (pyStrip r.channel) r.uid (map_role r.role)
            (now + r.expire_seconds) (now + r.expire_seconds) = Except.error msg) :
    generate_tokens apiKey appId appCert build lib now r =
      Except.error { status_code := 500, detail := "Failed to generate tokens: " ++ msg } := by
  unfold generate_tokens
  rw [hkey]
  simp [hch, huid, hacc, hb]

/-- Helper: with a nonempty pydantic error list, the rtc endpoint answers
422 carrying exactly that list, whatever the builder. -/
theorem rtc_endpoint_422 (apiKey : Option String) (appId appCert : String)
    (build : RtcBuildFn) (now : Int) (r : TokenRequest)
    (h : pydanticErrors r ≠ []) :
    rtc_token_endpoint apiKey appId appCert build now r =
      Except.error (422, pydanticErrors r) := by
  unfold rtc_token_endpoint
  cases hp : pydanticErrors r with
  | nil => exact absurd hp h
  | cons a l => rfl

/-- Helper: an out-of-range duration makes the pydantic error list
nonempty. -/
theorem duration_out_of_range_nonempty (r : TokenRequest)
    (hd : r.expire_seconds < 60 ∨ 86400 < r.expire_seconds) :
    pydanticErrors r ≠ [] := by
  intro hnil
  cases hd with
  | inl hlt => have := duration_lt_mem r hlt; rw [hnil] at this; simp at this
  | inr hgt => have := duration_gt_mem r hgt; rw [hnil] at this; simp at this

/-- C6 amended: validation failures are raised before any token-building
work — the resulting response is identical under every builder and
library: channel/identity failures map to HTTP 400 from the handlers,
while an out-of-range duration is rejected by the pydantic model layer
with HTTP 422 — and an exception raised inside the token builders
propagates as a generic HTTP 500, distinguishable from the validation
responses. -/
theorem C6_validation_before_crypto (apiKey : Option String) (appId appCert : String)
    (now : Int) (r : TokenRequest)
    (hkey : validate_api_key apiKey r.api_key = Except.ok ()) :
    (pyStrip r.channel = "" ∨ r.uid < 0 →
      ∀ (build build' : RtcBuildFn) (lib lib' : RtmTokenBuilderLib),
        (∃ e, generate_rtc_token apiKey appId appCert build now r = Except.error e ∧
          e.status_code = 400) ∧
        generate_rtc_token apiKey appId appCert build now r =
          generate_rtc_token apiKey appId appCert build' now r ∧
        (∃ e, generate_tokens apiKey appId appCert build lib now r = Except.error e ∧
          e.status_code = 400) ∧
        generate_tokens apiKey appId appCert build lib now r =
          generate_tokens apiKey appId appCert build' lib' now r) ∧
    (r.expire_seconds < 60 ∨ 86400 < r.expire_seconds →
      ∀ (build build' : RtcBuildFn),
        rtc_token_endpoint apiKey appId appCert build now r =
          Except.error (422, pydanticErrors r) ∧
        rtc_token_endpoint apiKey appId appCert build now r =
          rtc_token_endpoint apiKey appId appCert build' now r) ∧
    (∀ (build : RtcBuildFn) (msg : String),
      pyStrip r.channel ≠ "" → ¬ r.uid < 0 →
      build appId appCert (pyStrip r.channel) r.uid (map_role r.role)
          (now + r.expire_seconds) (now + r.expire_seconds) = Except.error msg →
      generate_rtc_token apiKey appId appCert build now r =
        Except.error { status_code := 500, detail := "Failed to generate token: " ++ msg } ∧
      (500 : Nat) ≠ 400) := by
  refine ⟨?_, ?_, ?_⟩
  · intro hv build build' lib lib'
    cases hv with
    | inl hch =>
      refine ⟨⟨_, rtc_channel_400 apiKey appId appCert build now r hkey hch, rfl⟩,
        (rtc_channel_400 apiKey appId appCert build now r hkey hch).trans
          (rtc_channel_400 apiKey appId appCert build' now r hkey hch).symm,
        ⟨_, tokens_channel_400 apiKey appId appCert build lib now r hkey hch, rfl⟩,
        (tokens_channel_400 apiKey appId appCert build lib now r hkey hch).trans
          (tokens_channel_400 apiKey appId appCert build' lib' now r hkey hch).symm⟩
    | inr huid =>
      by_cases hch : pyStrip r.channel = ""
      · refine ⟨⟨_, rtc_channel_400 apiKey appId appCert build now r hkey hch, rfl⟩,
          (rtc_channel_400 apiKey appId appCert build now r hkey hch).trans
            (rtc_channel_400 apiKey appId appCert build' now r hkey hch).symm,
          ⟨_, tokens_channel_400 apiKey appId appCert build lib now r hkey hch, rfl⟩,
          (tokens_channel_400 apiKey appId appCert build lib now r hkey hch).trans
            (tokens_channel_400 apiKey appId appCert build' lib' now r hkey hch).symm⟩
      · refine ⟨⟨_, rtc_uid_400 apiKey appId appCert build now r hkey hch huid, rfl⟩,
          (rtc_uid_400 apiKey appId appCert build now r hkey hch huid).trans
            (rtc_uid_400 apiKey appId appCert build' now r hkey hch huid).symm,
          ⟨_, tokens_uid_400 apiKey appId appCert build lib now r hkey hch huid, rfl⟩,
          (tokens_uid_400 apiKey appId appCert build lib now r hkey hch huid).trans
            (tokens_uid_400 apiKey appId appCert build' lib' now r hkey hch huid).symm⟩
  · intro hd build build'
    have hne := duration_out_of_range_nonempty r hd
    exact ⟨rtc_endpoint_422 apiKey appId appCert build now r hne,
      (rtc_endpoint_422 apiKey appId appCert build now r hne).trans
        (rtc_endpoint_422 apiKey appId appCert build' now r hne).symm⟩
  · intro build msg hch huid hb
    exact ⟨rtc_build_500 apiKey appId appCert build now r msg hkey hch huid hb,
      by decide⟩

/-- Witness for C6: a whitespace channel yields the builder-independent
400, and a raising builder yields the 500, at concrete inputs. -/
theorem C6_witness :
    (∃ e, generate_rtc_token none "app" "cert" okRtcBuild 100
        { channel := " ", uid := 3, role := ClientRole.participant,
          expire_seconds := 3600, user_account := none, api_key := none } =
        Except.error e ∧ e.status_code = 400) ∧
    (generate_rtc_token none "app" "cert" (fun _ _ _ _ _ _ _ => Except.error "boom") 100
        { channel := "room", uid := 7, role := ClientRole.host,
          expire_seconds := 3600, user_account := none, api_key := none } =
        Except.error { status_code := 500,
                       detail := "Failed to generate token: " ++ "boom" } ∧
      (500 : Nat) ≠ 400) :=
  ⟨((C6_validation_before_crypto none "app" "cert" 100
      { channel := " ", uid := 3, role := ClientRole.participant,
        expire_seconds := 3600, user_account := none, api_key := none } rfl).1
      (Or.inl rfl) okRtcBuild okRtcBuild okRtmLib okRtmLib).1,
    (C6_validation_before_crypto none "app" "cert" 100
      { channel := "room", uid := 7, role := ClientRole.host,
        expire_seconds := 3600, user_account := none, api_key := none } rfl).2.2
      (fun _ _ _ _ _ _ _ => Except.error "boom") "boom" (by decide) (by decide) rfl⟩

/-- C6 counterexample: an out-of-range duration (59 s) is not answered
with the HTTP 400 the claim assigns to validation failures: no
handler-level duration check exists, so the request is rejected by the
pydantic layer with HTTP 422, and 422 ≠ 400. -/
theorem C6_counterexample :
    rtc_token_endpoint none "app" "cert" okRtcBuild 1000
      { channel := "room", uid := 7, role := ClientRole.host,
        expire_seconds := 59, user_account := none, api_key := none } =
      Except.error
        (422, ["expire_seconds: Input should be greater than or equal to 60"]) ∧
    (422 : Nat) ≠ 400 := by
  exact ⟨rfl, by decide⟩

/-- C7: every successful token response of the /rtc/token and /token
endpoints satisfies expire_at ≥ now, indeed expire_at ≥ now + 60, because
the accepted duration is at least 60 seconds. -/
theorem C7_expire_at_ge_now (apiKey : Option String) (appId appCert : String)
    (build : RtcBuildFn) (lib : RtmTokenBuilderLib) (now : Int) (r : TokenRequest) :
    (∀ resp : TokenResponse,
       rtc_token_endpoint apiKey appId appCert build now r = Except.ok resp →
       resp.now ≤ resp.expire_at ∧ resp.now + 60 ≤ resp.expire_at) ∧
    (∀ resp : CombinedTokenResponse,
       combined_token_endpoint apiKey appId appCert build lib now r = Except.ok resp →
       resp.now ≤ resp.expire_at ∧ resp.now + 60 ≤ resp.expire_at) := by
  constructor
  · intro resp h
    unfold rtc_token_endpoint at h
    cases hp : pydanticErrors r with
    | nil =>
      rw [hp] at h
      obtain ⟨-, -, h60, -⟩ := pydantic_ok_bounds r hp
      cases hg : generate_rtc_token apiKey appId appCert build now r with
      | error e => rw [hg] at h; exact Except.noConfusion h
      | ok resp' =>
        rw [hg] at h
        injection h with h2
        subst h2
        obtain ⟨he, hn⟩ := generate_rtc_token_ok_elim _ _ _ _ _ _ _ hg
        rw [he, hn]
        omega
    | cons a l => rw [hp] at h; exact Except.noConfusion h
  · intro resp h
    unfold combined_token_endpoint at h
    cases hp : pydanticErrors r with
    | nil =>
      rw [hp] at h
      obtain ⟨-, -, h60, -⟩ := pydantic_ok_bounds r hp
      cases hg : generate_tokens apiKey appId appCert build lib now r with
      | error e => rw [hg] at h; exact Except.noConfusion h
      | ok resp' =>
        rw [hg] at h
        injection h with h2
        subst h2
        obtain ⟨he, hn⟩ := generate_tokens_ok_elim _ _ _ _ _ _ _ _ hg
        rw [he, hn]
        omega
    | cons a l => rw [hp] at h; exact Except.noConfusion h

/-- Witness for C7 at concrete successful calls of both endpoints. -/
theorem C7_witness :
    ((1000 : Int) ≤ 4600 ∧ (1000 : Int) + 60 ≤ 4600) ∧
    ((1000 : Int) ≤ 4600 ∧ (1000 : Int) + 60 ≤ 4600) :=
  ⟨(C7_expire_at_ge_now none "app" "cert" okRtcBuild okRtmLib 1000
      { channel := "room", uid := 7, role := ClientRole.host,
        expire_seconds := 3600, user_account := none, api_key := none }).1
      { token := "rtc-token", expire_at := 4600, now := 1000,
        channel := "room", uid := 7, role := ClientRole.host } rfl,
   (C7_expire_at_ge_now none "app" "cert" okRtcBuild okRtmLib 1000
      { channel := "room", uid := 7, role := ClientRole.host,
        expire_seconds := 3600, user_account := none, api_key := none }).2
      { rtc_token := "rtc-token", rtm_token := "rtm-token", expire_at := 4600,
        now := 1000, channel := "room", uid := 7, role := ClientRole.host,
        user_account := "7" } rfl⟩

/-- C9 (implicit): in the standalone /rtm/token handler, a user_account
that strips to empty is detected inside the try-block, so it surfaces as
HTTP 500 "Failed to generate RTM token: user_account cannot be empty.",
while the combined /token handler answers HTTP 400 for the same payload. -/
theorem C9_rtm_500_vs_combined_400 (apiKey : Option String) (appId appCert : String)
    (build : RtcBuildFn) (lib : RtmTokenBuilderLib) (now now2 : Int) (r : TokenRequest)
    (hkey : validate_api_key apiKey r.api_key = Except.ok ())
    (hacc : pyStrip (pyOrElse r.user_account (toString r.uid)) = "")
    (hch : pyStrip r.channel ≠ "") (huid : ¬ r.uid < 0) :
    generate_rtm_token apiKey appId appCert lib now r =
      Except.error { status_code := 500,
                     detail := "Failed to generate RTM token: user_account cannot be empty." } ∧
    generate_tokens apiKey appId appCert build lib now2 r =
      Except.error { status_code := 400,
                     detail := "user_account cannot be empty when provided." } := by
  constructor
  · unfold generate_rtm_token
    rw [hkey]
    simp [hacc]
  · unfold generate_tokens
    rw [hkey]
    simp [hch, hacc, huid]

/-- Witness for C9 at a whitespace-only user_account. -/
theorem C9_witness :
    generate_rtm_token none "app" "cert" okRtmLib 100
      { channel := "c", uid := 0, role := ClientRole.host, expire_seconds := 3600,
        user_account := some " ", api_key := none } =
      Except.error { status_code := 500,
                     detail := "Failed to generate RTM token: user_account cannot be empty." } ∧
    generate_tokens none "app" "cert" okRtcBuild okRtmLib 200
      { channel := "c", uid := 0, role := ClientRole.host, expire_seconds := 3600,
        user_account := some " ", api_key := none } =
      Except.error { status_code := 400,
                     detail := "user_account cannot be empty when provided." } :=
  C9_rtm_500_vs_combined_400 none "app" "cert" okRtcBuild okRtmLib 100 200
    { channel := "c", uid := 0, role := ClientRole.host, expire_seconds := 3600,
      user_account := some " ", api_key := none } rfl rfl (by decide) (by decide)

/-- Helper: token validation never returns a document whose stored status
is "used". -/
theorem validate_never_ok_when_used (tokens : String → Option TokenDoc)
    (now : Int) (t : String) (doc : TokenDoc)
    (hdoc : tokens t = some doc) (hused : doc.status = some "used") :
    ∀ d, validate_form_token tokens now t ≠ Except.ok d := by
  intro d hv
  unfold validate_form_token at hv
  by_cases hlen : t = "" ∨ t.length < 12
  · rw [if_pos hlen] at hv
    exact Except.noConfusion hv
  · rw [if_neg hlen, hdoc] at hv
    simp [hused] at hv

/-- Helper: a stored "used" token of regular length is rejected with 410. -/
theorem validate_used_410 (tokens : String → Option TokenDoc)
    (now : Int) (t : String) (doc : TokenDoc)
    (hlen : ¬ (t = "" ∨ t.length < 12))
    (hdoc : tokens t = some doc) (hused : doc.status = some "used") :
    validate_form_token tokens now t =
      Except.error { status_code := 410, detail := "Token já utilizado" } := by
  unfold validate_form_token
  rw [if_neg hlen, hdoc]
  simp [hused]

/-- Helper: `post_form` starts by validating the form token, so its
success implies the validation succeeded. -/
theorem post_form_ok_validate (st : WebState) (now : Int)
    (token data hora assunto host : String) (cohost : Option String) (capa : String)
    (st' : WebState) (resp : FormSuccess)
    (h : post_form st now token data hora assunto host cohost capa =
      Except.ok (st', resp)) :
    ∃ d, validate_form_token st.tokens now token = Except.ok d := by
  unfold post_form at h
  cases hv : validate_form_token st.tokens now token with
  | error e => rw [hv] at h; exact Except.noConfusion h
  | ok d => exact ⟨d, rfl⟩

/-- Helper: a token accepted by validation passed the length gate. -/
theorem validate_ok_len (tokens : String → Option TokenDoc) (now : Int)
    (t : String) (d : TokenDoc)
    (h : validate_form_token tokens now t = Except.ok d) :
    ¬ (t = "" ∨ t.length < 12) := by
  intro hlen
  unfold validate_form_token at h
  rw [if_pos hlen] at h
  exact Except.noConfusion h

/-- Helper: `validate_form_token` propagates as the first failure of
`post_form`. -/
theorem post_form_of_validate_error (st : WebState) (now : Int)
    (token data hora assunto host : String) (cohost : Option String) (capa : String)
    (e : HTTPError)
    (hv : validate_form_token st.tokens now token = Except.error e) :
    post_form st now token data hora assunto host cohost capa = Except.error e := by
  unfold post_form
  rw [hv]

/-- Helper: a successful `post_form` leaves the submitted token's document
with status "used" in the resulting store. -/
theorem post_form_ok_marks_used (st : WebState) (now : Int)
    (token data hora assunto host : String) (cohost : Option String) (capa : String)
    (st' : WebState) (resp : FormSuccess)
    (h : post_form st now token data hora assunto host cohost capa =
      Except.ok (st', resp)) :
    ∃ doc : TokenDoc, st'.tokens token = some doc ∧ doc.status = some "used" := by
  simp only [post_form] at h
  repeat' split at h
  all_goals try exact Except.noConfusion h
  all_goals (injection h with h2; injection h2 with ha hb; subst ha; simp)

/-- C8: form tokens are single-use: token validation never accepts a token
whose stored status is "used" (it rejects it, with HTTP 410 for tokens of
regular length); a successful form submission stores status "used" on the
token document; hence a second submission with the same token fails with
HTTP 410, so one form token cannot gate two successful submissions. -/
theorem C8_form_token_single_use (st : WebState) (now : Int)
    (token data hora assunto host : String) (cohost : Option String) (capa : String)
    (st' : WebState) (resp : FormSuccess)
    (h : post_form st now token data hora assunto host cohost capa =
      Except.ok (st', resp)) :
    (∀ (tokens : String → Option TokenDoc) (now2 : Int) (t : String) (doc : TokenDoc),
       tokens t = some doc → doc.status = some "used" →
       (∀ d, validate_form_token tokens now2 t ≠ Except.ok d) ∧
       (¬ (t = "" ∨ t.length < 12) →
         validate_form_token tokens now2 t =
           Except.error { status_code := 410, detail := "Token já utilizado" })) ∧
    (∃ doc, st'.tokens token = some doc ∧ doc.status = some "used") ∧
    (∀ (now2 : Int) (data2 hora2 assunto2 host2 : String) (cohost2 : Option String)
       (capa2 : String),
       post_form st' now2 token data2 hora2 assunto2 host2 cohost2 capa2 =
         Except.error { status_code := 410, detail := "Token já utilizado" }) := by
  obtain ⟨d0, hv0⟩ :=
    post_form_ok_validate st now token data hora assunto host cohost capa st' resp h
  have hlen := validate_ok_len st.tokens now token d0 hv0
  obtain ⟨doc, hdoc, hused⟩ :=
    post_form_ok_marks_used st now token data hora assunto host cohost capa st' resp h
  refine ⟨?_, ⟨doc, hdoc, hused⟩, ?_⟩
  · intro tokens now2 t doc2 hdoc2 hused2
    exact ⟨validate_never_ok_when_used tokens now2 t doc2 hdoc2 hused2,
           fun hl => validate_used_410 tokens now2 t doc2 hl hdoc2 hused2⟩
  · intro now2 data2 hora2 assunto2 host2 cohost2 capa2
    exact post_form_of_validate_error st' now2 token data2 hora2 assunto2 host2 cohost2
      capa2 _ (validate_used_410 st'.tokens now2 token doc hlen hdoc hused)

/-- A concrete pending form-token document. -/
def exTokenDoc : TokenDoc :=
  { status := some "pending", expireAt := some 99999, prefSubject := none,
    prefDate := none, prefTime := none, senderEmail := some "sender@x.y",
    sessionId := none, usedAt := false }

/-- A concrete store holding one pending form token. -/
def exWebState : WebState :=
  { tokens := fun t => if t = "tok-12345678" then some exTokenDoc else none,
    sessions := fun _ => none, storagePaths := fun _ => false }

/-- The result of one concrete successful form submission. -/
def exRun : Except HTTPError (WebState × FormSuccess) :=
  post_form exWebState 100 "tok-12345678" "2026-01-02" "10:30" "Tema X" "TEAM A"
    none "capa.png"

/-- The store after the concrete successful submission. -/
def exState2 : WebState :=
  match exRun with
  | Except.ok (s, _) => s
  | Except.error _ => exWebState

/-- The success context of the concrete submission. -/
def exResp : FormSuccess :=
  match exRun with
  | Except.ok (_, r) => r
  | Except.error _ =>
    { session_id := "", date := "", time := "", subject := "", host := "", cohost := "" }

/-- Witness for C8: after a concrete successful submission, the token's
stored status is "used" and resubmitting the same token fails with 410. -/
theorem C8_witness :
    (∃ doc, exState2.tokens "tok-12345678" = some doc ∧ doc.status = some "used") ∧
    post_form exState2 200 "tok-12345678" "2026-01-02" "10:30" "Tema X" "TEAM A"
      none "capa.png" =
      Except.error { status_code := 410, detail := "Token já utilizado" } :=
  ⟨(C8_form_token_single_use exWebState 100 "tok-12345678" "2026-01-02" "10:30"
      "Tema X" "TEAM A" none "capa.png" exState2 exResp rfl).2.1,
   (C8_form_token_single_use exWebState 100 "tok-12345678" "2026-01-02" "10:30"
      "Tema X" "TEAM A" none "capa.png" exState2 exResp rfl).2.2
     200 "2026-01-02" "10:30" "Tema X" "TEAM A" none "capa.png"⟩
